import Mathlib

/-!
# Verification of the docflu Google Drive image-upload client

Shallow embedding of `src/lib/core/gdocs/google-drive-client.js`.

The client keeps a per-session cache (`this.uploadedImages`), a persisted
state snapshot (the `googleDrive` namespace managed through
`stateManager.loadState` / `stateManager.updateState`) and talks to three
kinds of external collaborators, which the spec declares out of scope and
which we model as an environment of pure response functions:

* the Google Drive API (`drive.files.get`, `drive.files.create`,
  `drive.permissions.create`);
* the local file system (`fs.readFile`, `fs.createWriteStream`,
  `fs.pathExists`, `fs.remove`) — for the claims we track only the set of
  files living in the `.docusaurus/temp` directory;
* `crypto.createHash('sha256')`, `axios.get` and the optional `sharp`
  package, modelled as environment-supplied deterministic functions and
  availability flags.

Every backend interaction of one invocation is recorded in an effect
trace, in program order, so that claims about "no backend calls", "at most
one upload" and "persist before return" are statements about that trace.
Buffers (file contents, HTTP bodies) are modelled as `String`s of bytes.
-/

deriving instance DecidableEq for Except

namespace DocFlu

/-- One observable backend interaction of the client, in program order.
`driveGet fid` is `drive.files.get({fileId: fid})`; `driveCreate` is
`drive.files.create` (folder or file upload — `name`, `mimeType`, `body`
are the metadata/media passed); `permCreate fid` is
`drive.permissions.create({fileId: fid, role reader / type anyone})`;
`loadState` / `updateState` are the state-manager calls. -/
inductive Effect where
  | driveGet (fileId : String)
  | driveCreate (name : String) (mimeType : String) (body : String)
  | permCreate (fileId : String)
  | loadState
  | updateState
deriving Repr, DecidableEq

/-- Whether an effect is a `drive.files.create` call (a physical upload or
folder creation). -/
def Effect.isCreate : Effect → Bool
  | .driveCreate _ _ _ => true
  | _ => false

/-- The record the client stores per uploaded image, both in the session
cache and in `state.googleDrive.uploadedImages[hash]` (the JS object
built at `uploadImage`/`uploadRemoteImage`).  Display-only fields —
`size`, `webViewLink`, `uploadedAt` — play no role in any claim and are
omitted; `originalUrl` is present only for remote uploads. -/
structure UploadRecord where
  url : String
  fileId : String
  fileName : String
  hash : String
  originalUrl : Option String
deriving Repr, DecidableEq

/-- Association-list update with JS object-spread / `Map.set` semantics:
replace the binding of `k` if present, else append it. -/
def setA {α : Type} : List (String × α) → String → α → List (String × α)
  | [], k, v => [(k, v)]
  | (k', v') :: rest, k, v =>
    if k' = k then (k', v) :: rest else (k', v') :: setA rest k v

/-- Association-list lookup (`map.get` / `obj?.[key]`). -/
def lookupA {α : Type} : List (String × α) → String → Option α
  | [], _ => none
  | (k', v') :: rest, k => if k' = k then some v' else lookupA rest k

/-- The `googleDrive` namespace of the persisted state snapshot. -/
structure GoogleDriveState where
  imageFolderId : Option String
  imageFolderName : Option String
  createdAt : Option String
  uploadedImages : List (String × UploadRecord)
deriving Repr, DecidableEq

/-- The mutable parts of one client run: the session cache
(`this.uploadedImages`), the client's `this.imageFolderId` field, the
persisted snapshot behind the state manager, the set of files currently
existing in the `.docusaurus/temp` directory, and how many
`drive.files.create` calls have been made so far (used to index the
environment's id supply). -/
structure Session where
  cache : List (String × UploadRecord)
  clientFolderId : Option String
  state : GoogleDriveState
  tempFiles : List String
  createCount : Nat
deriving Repr, DecidableEq

/-- External collaborators as pure response functions.  `getFile fid`
answers `drive.files.get`: `none` means the call threw (file gone or
inaccessible), `some t` means it answered with `trashed = t`.
`createOk n` / `createId n` give the outcome of the `n`-th
`drive.files.create` of the run (counted by `Session.createCount`), and
`permOk fid` the outcome of `drive.permissions.create`.  `sha256hex` is
`crypto.createHash('sha256').update(x).digest('hex')`; `readFile` maps a
path to the file's bytes; `httpGet url` answers `axios.get`: `none` is a
network error, otherwise the body bytes and the optional `content-type`
header.  `sharpAvailable` is whether `require('sharp')` resolves,
`ensureDirOk` / `sharpToFileOk` / `pngExists` the outcomes of the file
system steps inside the conversion, and `now` the timestamp used for
`Date.now()` / `toISOString()`. -/
structure Env where
  projectRoot : String
  getFile : String → Option Bool
  createOk : Nat → Bool
  createId : Nat → String
  permOk : String → Bool
  sha256hex : String → String
  readFile : String → String
  httpGet : String → Option (String × Option String)
  sharpAvailable : Bool
  ensureDirOk : Bool
  sharpToFileOk : Bool
  pngExists : Bool
  now : String

/-- Split a character list at every occurrence of the separator `c`
(the semantics of `String.split` on a one-character separator). -/
def splitOnCharAux (c : Char) : List Char → List Char → List (List Char)
  | [], acc => [acc.reverse]
  | x :: xs, acc =>
    if x = c then acc.reverse :: splitOnCharAux c xs []
    else splitOnCharAux c xs (x :: acc)

/-- Split at every occurrence of `c`. -/
def splitOnChar (c : Char) (l : List Char) : List (List Char) :=
  splitOnCharAux c l []

/-- Is `pat` a prefix of `l`? -/
def startsWithL : List Char → List Char → Bool
  | [], _ => true
  | _ :: _, [] => false
  | x :: xs, y :: ys => x = y && startsWithL xs ys

/-- Is `pat` a suffix of `l`? (`String.endsWith`). -/
def endsWithL (l pat : List Char) : Bool :=
  startsWithL pat.reverse l.reverse

/-- `s.endsWith pat` on the `String` wrappers. -/
def endsWithS (s pat : String) : Bool :=
  endsWithL s.data pat.data

/-- `s.toLowerCase()` — ASCII lower-casing, as `String.toLower` does. -/
def toLowerS (s : String) : String :=
  ⟨s.data.map Char.toLower⟩

/-- First `n` characters of a string (`String.take` / `substring(0, n)`). -/
def takeS (s : String) (n : Nat) : String :=
  ⟨s.data.take n⟩

/-- The last element of a list of character lists, `[]` when empty. -/
def lastL : List (List Char) → List Char
  | [] => []
  | [x] => x
  | _ :: y :: rest => lastL (y :: rest)

/-- `path.extname` (Node): the extension of the last path component, from
its last `.`; empty when there is no dot or the only dot leads a dotfile. -/
def extname (p : String) : String :=
  let base := lastL (splitOnChar '/' p.data)
  let parts := splitOnChar '.' base
  match parts with
  | [] => ""
  | [_] => ""
  | first :: _ :: restTail =>
    if first = [] ∧ restTail = [] then ""
    else ⟨'.' :: lastL parts⟩

/-- `path.basename(p)` (Node): the last path component. -/
def basename (p : String) : String :=
  ⟨lastL (splitOnChar '/' p.data)⟩

/-- `path.basename(p, ext)` (Node): the last component with the suffix
`ext` removed when present. -/
def basenameExt (p ext : String) : String :=
  let b := basename p
  if ext ≠ "" ∧ endsWithS b ext ∧ b ≠ ext then
    ⟨b.data.take (b.data.length - ext.data.length)⟩
  else b

/-- Join character lists with the separator `c` between them
(`Array.join('/')`). -/
def intercalateChar (c : Char) : List (List Char) → List Char
  | [] => []
  | [x] => x
  | x :: y :: rest => x ++ c :: intercalateChar c (y :: rest)

/-- Everything after the first `://`, when present. -/
def afterSchemeSep : List Char → Option (List Char)
  | [] => none
  | ':' :: '/' :: '/' :: rest => some rest
  | _ :: xs => afterSchemeSep xs

/-- Drop characters from the first occurrence of `c` on (used to strip
the query / fragment of a URL path). -/
def dropFromChar (c : Char) : List Char → List Char
  | [] => []
  | x :: xs => if x = c then [] else x :: dropFromChar c xs

/-- `new URL(u).pathname`, modelled for `scheme://host/path?query#frag`
URLs: the part after the host, without query or fragment; `/` when the
URL has no path. -/
def urlPathname (u : String) : String :=
  match afterSchemeSep u.data with
  | none => ""
  | some rest =>
    let hostAndPath := dropFromChar '#' (dropFromChar '?' rest)
    match splitOnChar '/' hostAndPath with
    | [] => "/"
    | [_] => "/"
    | _ :: pathParts => ⟨'/' :: intercalateChar '/' pathParts⟩

/-- The `mimeTypes` table of `getMimeType` (extension to MIME type). -/
def mimeTypesTable : List (String × String) :=
  [(".jpg", "image/jpeg"), (".jpeg", "image/jpeg"), (".png", "image/png"),
   (".gif", "image/gif"), (".svg", "image/svg+xml"), (".webp", "image/webp"),
   (".bmp", "image/bmp"), (".tiff", "image/tiff")]

/-- `getMimeType(filePath)`: look the lower-cased extension up in the
table, defaulting to `image/jpeg`. -/
def getMimeType (filePath : String) : String :=
  match lookupA mimeTypesTable (toLowerS (extname filePath)) with
  | some m => m
  | none => "image/jpeg"

/-- The `extensions` table of `getExtensionFromMimeType`. -/
def extensionsTable : List (String × String) :=
  [("image/jpeg", ".jpg"), ("image/png", ".png"), ("image/gif", ".gif"),
   ("image/svg+xml", ".svg"), ("image/webp", ".webp"), ("image/bmp", ".bmp"),
   ("image/tiff", ".tiff")]

/-- `getExtensionFromMimeType(mimeType)`: table lookup defaulting to
`.jpg`. -/
def getExtensionFromMimeType (mimeType : String) : String :=
  match lookupA extensionsTable mimeType with
  | some e => e
  | none => ".jpg"

/-- List insertion for the set of existing temp files: creating a file
that already exists changes nothing. -/
def insertT (l : List String) (x : String) : List String :=
  if x ∈ l then l else x :: l

/-- `fs.remove`: after removal the path no longer exists. -/
def removeF (l : List String) (x : String) : List String :=
  l.filter (fun y => y ≠ x)

/-- The temp-directory path `path.join(this.projectRoot, '.docusaurus',
'temp')`. -/
def tempDir (projectRoot : String) : String :=
  projectRoot ++ "/.docusaurus/temp"

/-- The PNG path the conversion writes:
`path.join(tempDir, basename(imagePath, ext) + '.png')`. -/
def convertedPngPath (projectRoot imagePath : String) : String :=
  tempDir projectRoot ++ "/" ++
    basenameExt imagePath (toLowerS (extname imagePath)) ++ ".png"

/-- The body of `convertImageForGoogleDocs`'s outer `try` block once
`sharp` has loaded: ensure the temp dir, convert, check the result exists;
any failure is a thrown error (`Except.error`).  Returns the produced path
together with the temp files that now exist. -/
def convertBody (env : Env) (imagePath : String)
    (temps : List String) : Except String (String × List String) :=
  if ¬ env.ensureDirOk then .error "ensureDir failed"
  else
    let pngPath := convertedPngPath env.projectRoot imagePath
    if ¬ env.sharpToFileOk then .error "sharp toFile failed"
    else if env.pngExists then .ok (pngPath, insertT temps pngPath)
    else .error "PNG conversion failed"

/-- `convertImageForGoogleDocs(imagePath, contentType)`: returns the
original path unless the image is SVG (by extension or content type);
for SVG it tries to convert to PNG via `sharp`, and on a missing `sharp`
package or any conversion error it warns and returns the original path —
it never throws.  The second component is the resulting set of temp
files. -/
def convertImageForGoogleDocs (env : Env) (imagePath : String)
    (contentType : Option String) (temps : List String) :
    String × List String :=
  let ext := toLowerS (extname imagePath)
  let isSvg := ext = ".svg" ∨ contentType = some "image/svg+xml"
  if ¬ isSvg then (imagePath, temps)
  else if ¬ env.sharpAvailable then (imagePath, temps)
  else
    match convertBody env imagePath temps with
    | .ok (p, temps') => (p, temps')
    | .error _ => (imagePath, temps)

/-- The folder-creation tail of `ensureImageFolder` (lines 81–119): create
the `docflu-files-…` folder under `root`, make it public, and persist the
new id with an immediate `updateState`.  `effs` is the trace accumulated
before this point. -/
def createImageFolder (env : Env) (s : Session) (effs : List Effect) :
    Except String String × Session × List Effect :=
  let folderName := "docflu-files-" ++ env.now
  let createEff := Effect.driveCreate folderName
    "application/vnd.google-apps.folder" ""
  if ¬ env.createOk s.createCount then
    (.error "files.create failed", { s with createCount := s.createCount + 1 },
      effs ++ [createEff])
  else
    let fid := env.createId s.createCount
    let s1 := { s with createCount := s.createCount + 1,
                       clientFolderId := some fid }
    if ¬ env.permOk fid then
      (.error "permissions.create failed", s1,
        effs ++ [createEff, .permCreate fid])
    else
      let newState : GoogleDriveState :=
        { imageFolderId := some fid,
          imageFolderName := some folderName,
          createdAt := some env.now,
          uploadedImages := s1.state.uploadedImages }
      (.ok fid, { s1 with state := newState },
        effs ++ [createEff, .permCreate fid, .loadState, .updateState])

/-- `ensureImageFolder()` (lines 55–125): load the state; when it records
a folder id, check it with `drive.files.get` and return it if it is alive
and not trashed; otherwise (no record, trashed, or the `get` threw)
create a replacement folder and record its id. -/
def ensureImageFolder (env : Env) (s : Session) :
    Except String String × Session × List Effect :=
  let s0 := { s with clientFolderId := s.state.imageFolderId }
  match s.state.imageFolderId with
  | some fid =>
    match env.getFile fid with
    | some false => (.ok fid, s0, [.loadState, .driveGet fid])
    | some true =>
      createImageFolder env { s0 with clientFolderId := none }
        [.loadState, .driveGet fid]
    | none =>
      createImageFolder env { s0 with clientFolderId := none }
        [.loadState, .driveGet fid]
  | none => createImageFolder env s0 [.loadState]

/-- The hash `uploadImage` works with (lines 197–201): the caller-supplied
hash when given, else the sha-256 digest of the processed file's bytes. -/
def uploadImageKeyAux (env : Env) (processedImagePath : String) :
    Option String → String
  | some h => h
  | none => env.sha256hex (env.readFile processedImagePath)

/-- The fresh-upload tail of `uploadImage` (lines 232–297): name the file
`<hash prefix>-<basename>`, `drive.files.create` it, make it public,
build the `uc?export=download` URL and the upload record, cache it and
persist it.  `effs` is the trace accumulated before this point. -/
def uploadImageFresh (env : Env) (s : Session)
    (processedImagePath imageHash : String) (effs : List Effect) :
    Except String (UploadRecord × Bool) × Session × List Effect :=
  let fileName := takeS imageHash 8 ++ "-" ++ basename processedImagePath
  let mimeType := getMimeType processedImagePath
  let createEff := Effect.driveCreate fileName mimeType
    (env.readFile processedImagePath)
  if ¬ env.createOk s.createCount then
    (.error "files.create failed", { s with createCount := s.createCount + 1 },
      effs ++ [createEff])
  else
    let fid := env.createId s.createCount
    let s1 := { s with createCount := s.createCount + 1 }
    if ¬ env.permOk fid then
      (.error "permissions.create failed", s1,
        effs ++ [createEff, .permCreate fid])
    else
      let publicUrl := "https://drive.google.com/uc?export=download&id=" ++ fid
      let uploadResult : UploadRecord :=
        { url := publicUrl, fileId := fid, fileName := fileName,
          hash := imageHash, originalUrl := none }
      let newState : GoogleDriveState :=
        { s1.state with
            imageFolderId := s1.clientFolderId,
            uploadedImages := setA s1.state.uploadedImages imageHash
              uploadResult }
      (.ok (uploadResult, false),
        { s1 with cache := setA s1.cache imageHash uploadResult,
                  state := newState },
        effs ++ [createEff, .permCreate fid, .loadState, .updateState])

/-- `uploadImage(imagePath, imageHash)` (lines 192–302): convert SVG if
needed, hash the processed bytes when no hash is given, answer from the
session cache, else adopt a live persisted record, else upload fresh. -/
def uploadImage (env : Env) (s : Session) (imagePath : String)
    (imageHashOpt : Option String) :
    Except String (UploadRecord × Bool) × Session × List Effect :=
  let conv := convertImageForGoogleDocs env imagePath none s.tempFiles
  let processedImagePath := conv.1
  let s0 := { s with tempFiles := conv.2 }
  let imageHash := uploadImageKeyAux env processedImagePath imageHashOpt
  match lookupA s0.cache imageHash with
  | some cachedResult => (.ok (cachedResult, true), s0, [])
  | none =>
    match lookupA s0.state.uploadedImages imageHash with
    | some uploadedImage =>
      match env.getFile uploadedImage.fileId with
      | some false =>
        (.ok (uploadedImage, true),
          { s0 with cache := setA s0.cache imageHash uploadedImage },
          [.loadState, .driveGet uploadedImage.fileId])
      | some true =>
        uploadImageFresh env s0 processedImagePath imageHash
          [.loadState, .driveGet uploadedImage.fileId]
      | none =>
        uploadImageFresh env s0 processedImagePath imageHash
          [.loadState, .driveGet uploadedImage.fileId]
    | none => uploadImageFresh env s0 processedImagePath imageHash [.loadState]

/-- The `remote-<hash prefix><ext>` temp-file path the download is
written to. -/
def remoteTempFilePath (env : Env) (urlHash extension : String) : String :=
  tempDir env.projectRoot ++ "/" ++ "remote-" ++ takeS urlHash 8 ++ extension

/-- The download-convert-upload tail of `uploadRemoteImage`
(lines 344–459): download to a temp file, convert SVG if needed, upload,
make public, remove the temp files, cache and persist the record.  The
temp files are removed only on this success path — an error thrown by the
upload or permission call propagates out before the cleanup block runs. -/
def uploadRemoteImageFresh (env : Env) (s : Session)
    (imageUrl urlHash : String) (effs : List Effect) :
    Except String (UploadRecord × Bool) × Session × List Effect :=
  if ¬ env.ensureDirOk then (.error "ensureDir failed", s, effs)
  else
    match env.httpGet imageUrl with
    | none => (.error "axios.get failed", s, effs)
    | some (body, contentType) =>
      let e1 :=
        match contentType with
        | some ct => getExtensionFromMimeType ct
        | none => ".jpg"
      let extension :=
        if e1 ≠ "" then e1
        else
          let e2 := extname (urlPathname imageUrl)
          if e2 ≠ "" then e2 else ".jpg"
      let tempFilePath := remoteTempFilePath env urlHash extension
      let temps1 := insertT s.tempFiles tempFilePath
      let isSvgFromUrl :=
        endsWithS (toLowerS (urlPathname imageUrl)) ".svg" ∨ extension = ".svg"
      let conv := convertImageForGoogleDocs env tempFilePath
        (if isSvgFromUrl then some "image/svg+xml" else contentType) temps1
      let processedImagePath := conv.1
      let temps2 := conv.2
      let finalFileName :=
        "remote-" ++ takeS urlHash 8 ++ extname processedImagePath
      let finalMimeType := getMimeType processedImagePath
      let bodyBytes :=
        if processedImagePath = tempFilePath then body
        else env.readFile processedImagePath
      let createEff := Effect.driveCreate finalFileName finalMimeType bodyBytes
      if ¬ env.createOk s.createCount then
        (.error "files.create failed",
          { s with createCount := s.createCount + 1, tempFiles := temps2 },
          effs ++ [createEff])
      else
        let fid := env.createId s.createCount
        let s1 := { s with createCount := s.createCount + 1,
                           tempFiles := temps2 }
        if ¬ env.permOk fid then
          (.error "permissions.create failed", s1,
            effs ++ [createEff, .permCreate fid])
        else
          let publicUrl :=
            "https://drive.google.com/uc?export=download&id=" ++ fid
          let uploadResult : UploadRecord :=
            { url := publicUrl, fileId := fid, fileName := finalFileName,
              hash := urlHash, originalUrl := some imageUrl }
          let temps3 :=
            if tempFilePath ∈ temps2 then removeF temps2 tempFilePath
            else temps2
          let temps4 :=
            if processedImagePath ≠ tempFilePath ∧ processedImagePath ∈ temps3
            then removeF temps3 processedImagePath else temps3
          let newState : GoogleDriveState :=
            { s1.state with
                imageFolderId := s1.clientFolderId,
                uploadedImages := setA s1.state.uploadedImages urlHash
                  uploadResult }
          (.ok (uploadResult, false),
            { s1 with cache := setA s1.cache urlHash uploadResult,
                      state := newState, tempFiles := temps4 },
            effs ++ [createEff, .permCreate fid, .loadState, .updateState])

/-- `uploadRemoteImage(imageUrl)` (lines 309–465): the cache key is the
sha-256 of the URL string itself; answer from the session cache, else
adopt a live persisted record, else download and upload fresh. -/
def uploadRemoteImage (env : Env) (s : Session) (imageUrl : String) :
    Except String (UploadRecord × Bool) × Session × List Effect :=
  let urlHash := env.sha256hex imageUrl
  match lookupA s.cache urlHash with
  | some cachedResult => (.ok (cachedResult, true), s, [])
  | none =>
    match lookupA s.state.uploadedImages urlHash with
    | some uploadedImage =>
      match env.getFile uploadedImage.fileId with
      | some false =>
        (.ok (uploadedImage, true),
          { s with cache := setA s.cache urlHash uploadedImage },
          [.loadState, .driveGet uploadedImage.fileId])
      | some true =>
        uploadRemoteImageFresh env s imageUrl urlHash
          [.loadState, .driveGet uploadedImage.fileId]
      | none =>
        uploadRemoteImageFresh env s imageUrl urlHash
          [.loadState, .driveGet uploadedImage.fileId]
    | none => uploadRemoteImageFresh env s imageUrl urlHash [.loadState]

/-- The cache key a `uploadImage` call resolves to, phrased without the
session: the conversion's output path does not depend on which temp
files exist, so the key is session-independent. -/
def uploadImageKey (env : Env) (imagePath : String)
    (imageHashOpt : Option String) : String :=
  uploadImageKeyAux env
    (convertImageForGoogleDocs env imagePath none []).1 imageHashOpt

theorem convert_fst_temps_indep (env : Env) (p : String) (ct : Option String)
    (temps : List String) :
    (convertImageForGoogleDocs env p ct temps).1 =
      (convertImageForGoogleDocs env p ct []).1 := by
  unfold convertImageForGoogleDocs convertBody
  by_cases h0 : (toLowerS (extname p) = ".svg" ∨ ct = some "image/svg+xml") <;>
    by_cases hs : env.sharpAvailable <;>
    by_cases h1 : env.ensureDirOk <;> by_cases h2 : env.sharpToFileOk <;>
    by_cases h3 : env.pngExists <;> simp [h0, hs, h1, h2, h3]

theorem uploadImageKeyAux_eq (env : Env) (s : Session) (p : String)
    (ho : Option String) :
    uploadImageKeyAux env
        (convertImageForGoogleDocs env p none s.tempFiles).1 ho =
      uploadImageKey env p ho := by
  cases ho <;>
    simp [uploadImageKeyAux, uploadImageKey, convert_fst_temps_indep]

theorem lookupA_setA_self {α : Type} (l : List (String × α)) (k : String)
    (v : α) : lookupA (setA l k v) k = some v := by
  induction l with
  | nil => simp [setA, lookupA]
  | cons hd tl ih =>
    obtain ⟨k', v'⟩ := hd
    by_cases h : k' = k <;> simp [setA, lookupA, h, ih]

theorem lookupA_eq_none_of_not_mem {α : Type} (l : List (String × α))
    (k : String) (h : k ∉ l.map Prod.fst) : lookupA l k = none := by
  induction l with
  | nil => rfl
  | cons hd tl ih =>
    obtain ⟨k', v'⟩ := hd
    simp only [List.map, List.mem_cons, not_or] at h
    have hne : ¬ k' = k := fun hh => h.1 hh.symm
    simp [lookupA, hne, ih h.2]

/-- A stand-in for the sha-256 hex digest, used to run the model on
concrete inputs: path-safe (no `/`, `.`, `:`, `?`) and injective on the
inputs the concrete runs exercise, like the real digest. -/
def hashModel (s : String) : String :=
  ⟨s.data.map (fun c =>
    if c = '/' ∨ c = '.' ∨ c = ':' ∨ c = '?' then '_' else c)⟩

/-- Concrete environment for running the model: every backend call
succeeds, no remote resource exists yet (`files.get` throws), every
remote URL serves the same PNG bytes `IDENTICAL-PNG-BYTES`. -/
def envAllOk : Env := {
  projectRoot := "/proj",
  getFile := fun _ => none,
  createOk := fun _ => true,
  createId := fun n => "newfile" ++ toString n,
  permOk := fun _ => true,
  sha256hex := hashModel,
  readFile := fun _ => "LOCAL-BYTES",
  httpGet := fun _ => some ("IDENTICAL-PNG-BYTES", some "image/png"),
  sharpAvailable := true, ensureDirOk := true, sharpToFileOk := true,
  pngExists := true,
  now := "2024-01-01T00:00:00Z" }

/-- Concrete starting session: the media folder `folder0` is recorded and
the client field is set, no uploads recorded, no temp files. -/
def sessEmpty : Session := {
  cache := [], clientFolderId := some "folder0",
  state := { imageFolderId := some "folder0", imageFolderName := none,
             createdAt := none, uploadedImages := [] },
  tempFiles := [], createCount := 0 }

/-- C9: every MIME type of the client's table round-trips through
`getExtensionFromMimeType` and `getMimeType`, and on any MIME type or
extension outside the tables the functions return the defaults `.jpg`
and `image/jpeg` — they never fail. -/
theorem claim_C9_mime_roundtrip_and_defaults :
    (∀ m ∈ ["image/jpeg", "image/png", "image/gif", "image/svg+xml",
            "image/webp", "image/bmp", "image/tiff"],
        getMimeType ("image" ++ getExtensionFromMimeType m) = m) ∧
    (∀ mt : String, mt ∉ extensionsTable.map Prod.fst →
        getExtensionFromMimeType mt = ".jpg") ∧
    (∀ p : String, toLowerS (extname p) ∉ mimeTypesTable.map Prod.fst →
        getMimeType p = "image/jpeg") := by
  refine ⟨by decide, ?_, ?_⟩
  · intro mt h
    unfold getExtensionFromMimeType
    rw [lookupA_eq_none_of_not_mem _ _ h]
  · intro p h
    unfold getMimeType
    rw [lookupA_eq_none_of_not_mem _ _ h]

/-- Witness for C9 at concrete inputs: `image/webp` round-trips, an
unknown MIME type gets `.jpg`, an unknown extension gets `image/jpeg`. -/
theorem claim_C9_witness :
    getMimeType ("image" ++ getExtensionFromMimeType "image/webp") =
      "image/webp" ∧
    getExtensionFromMimeType "text/plain" = ".jpg" ∧
    getMimeType "diagram.xyz" = "image/jpeg" :=
  ⟨claim_C9_mime_roundtrip_and_defaults.1 "image/webp" (by decide),
   claim_C9_mime_roundtrip_and_defaults.2.1 "text/plain" (by decide),
   claim_C9_mime_roundtrip_and_defaults.2.2 "diagram.xyz" (by decide)⟩

/-- C7: `convertImageForGoogleDocs` never propagates a conversion
failure: it always returns a path (the original or the converted PNG);
when the `sharp` capability is unavailable it returns the original path,
and when any conversion step fails (temp dir, `sharp` call, result
check) it also falls back to the original path — the operation proceeds
rather than aborting. -/
theorem claim_C7_conversion_never_fails (env : Env) (imagePath : String)
    (contentType : Option String) (temps : List String) :
    ((convertImageForGoogleDocs env imagePath contentType temps).1 =
        imagePath ∨
     (convertImageForGoogleDocs env imagePath contentType temps).1 =
        convertedPngPath env.projectRoot imagePath) ∧
    (¬ env.sharpAvailable →
      (convertImageForGoogleDocs env imagePath contentType temps).1 =
        imagePath) ∧
    (¬ (env.ensureDirOk ∧ env.sharpToFileOk ∧ env.pngExists) →
      (convertImageForGoogleDocs env imagePath contentType temps).1 =
        imagePath) := by
  unfold convertImageForGoogleDocs convertBody
  by_cases h0 : (toLowerS (extname imagePath) = ".svg" ∨
      contentType = some "image/svg+xml") <;>
    by_cases hs : env.sharpAvailable <;>
    by_cases h1 : env.ensureDirOk <;> by_cases h2 : env.sharpToFileOk <;>
    by_cases h3 : env.pngExists <;> simp [h0, hs, h1, h2, h3]

/-- Witness for C7: with `sharp` missing, an SVG is passed through
unchanged; with `sharp` present but the conversion failing, it is also
passed through. -/
theorem claim_C7_witness :
    (convertImageForGoogleDocs { envAllOk with sharpAvailable := false }
        "/proj/d.svg" none []).1 = "/proj/d.svg" ∧
    (convertImageForGoogleDocs { envAllOk with sharpToFileOk := false }
        "/proj/d.svg" none []).1 = "/proj/d.svg" :=
  ⟨(claim_C7_conversion_never_fails _ "/proj/d.svg" none []).2.1 (by decide),
   (claim_C7_conversion_never_fails _ "/proj/d.svg" none []).2.2 (by decide)⟩

/-- C6: when the persisted state records a media-folder id and the
remote folder is alive and not trashed, `ensureImageFolder` performs
exactly the existence check (`loadState` then one `files.get`), returns
the recorded id, and changes nothing; when the record is absent, or the
folder is trashed or gone, it creates a replacement folder and records
the new id in the state. -/
theorem claim_C6_ensure_folder (env : Env) (s : Session) :
    (∀ fid, s.state.imageFolderId = some fid →
      env.getFile fid = some false →
      ensureImageFolder env s =
        (.ok fid, { s with clientFolderId := some fid },
         [.loadState, .driveGet fid])) ∧
    ((s.state.imageFolderId = none ∨
      ∃ fid, s.state.imageFolderId = some fid ∧
        env.getFile fid ≠ some false) →
      env.createOk s.createCount →
      env.permOk (env.createId s.createCount) →
      (ensureImageFolder env s).1 = .ok (env.createId s.createCount) ∧
      (ensureImageFolder env s).2.1.state.imageFolderId =
        some (env.createId s.createCount) ∧
      (ensureImageFolder env s).2.2.any Effect.isCreate = true) := by
  constructor
  · intro fid hrec hlive
    unfold ensureImageFolder
    rw [hrec]
    simp [hlive, hrec]
  · intro hgone hcok hpok
    unfold ensureImageFolder createImageFolder
    rcases hgone with hnone | ⟨fid, hrec, hne⟩
    · rw [hnone]
      simp [hnone, hcok, hpok, Effect.isCreate]
    · rw [hrec]
      rcases hf : env.getFile fid with _ | b
      · simp [hf, hcok, hpok, Effect.isCreate]
      · cases b
        · exact absurd hf hne
        · simp [hf, hcok, hpok, Effect.isCreate]

/-- Witness for C6: with the recorded folder alive, the run is exactly
the existence check; with `files.get` failing (folder gone), a new
folder `newfile0` is created and recorded. -/
theorem claim_C6_witness :
    (ensureImageFolder
        { envAllOk with
            getFile := fun fid =>
              if fid = "folder0" then some false else none } sessEmpty =
      (.ok "folder0", { sessEmpty with clientFolderId := some "folder0" },
       [.loadState, .driveGet "folder0"])) ∧
    ((ensureImageFolder envAllOk sessEmpty).1 = .ok "newfile0" ∧
     (ensureImageFolder envAllOk sessEmpty).2.1.state.imageFolderId =
       some "newfile0" ∧
     (ensureImageFolder envAllOk sessEmpty).2.2.any Effect.isCreate = true) :=
  ⟨(claim_C6_ensure_folder _ sessEmpty).1 "folder0" (by decide) (by decide),
   (claim_C6_ensure_folder envAllOk sessEmpty).2
     (Or.inr ⟨"folder0", by decide, by decide⟩) (by decide) (by decide)⟩

/-- C5: when the computed hash key is already in the in-memory session
cache, `uploadImage` returns the cached record marked `cached` with an
empty backend trace — no `files.get`, no upload, no permission change,
no state read or write — and leaves the cache, the persisted state and
the create count untouched; `uploadRemoteImage` behaves the same on a
session-cache hit for the URL hash, changing nothing at all. -/
theorem claim_C5_session_cache_hit (env : Env) (s : Session) :
    (∀ imagePath imageHashOpt r,
      lookupA s.cache (uploadImageKey env imagePath imageHashOpt) = some r →
      (uploadImage env s imagePath imageHashOpt).1 = .ok (r, true) ∧
      (uploadImage env s imagePath imageHashOpt).2.2 = [] ∧
      (uploadImage env s imagePath imageHashOpt).2.1.cache = s.cache ∧
      (uploadImage env s imagePath imageHashOpt).2.1.state = s.state ∧
      (uploadImage env s imagePath imageHashOpt).2.1.createCount =
        s.createCount) ∧
    (∀ imageUrl r,
      lookupA s.cache (env.sha256hex imageUrl) = some r →
      uploadRemoteImage env s imageUrl = (.ok (r, true), s, [])) := by
  constructor
  · intro p ho r hhit
    simp only [uploadImage]
    rw [uploadImageKeyAux_eq, hhit]
    simp
  · intro u r hhit
    simp only [uploadRemoteImage]
    rw [hhit]

/-- A record as the client would have stored it for the local hash key
`hashA`. -/
def recLocal : UploadRecord :=
  { url := "https://drive.google.com/uc?export=download&id=fileA",
    fileId := "fileA", fileName := "hashA-img.png", hash := "hashA",
    originalUrl := none }

/-- A record as the client would have stored it for a remote URL key. -/
def recRemote : UploadRecord :=
  { url := "https://drive.google.com/uc?export=download&id=fileB",
    fileId := "fileB", fileName := "remote-https___.png",
    hash := hashModel "https://a.example/one.png",
    originalUrl := some "https://a.example/one.png" }

/-- A session whose in-memory cache already holds `recLocal` and
`recRemote`. -/
def sessCached : Session :=
  { sessEmpty with cache :=
      [("hashA", recLocal),
       (hashModel "https://a.example/one.png", recRemote)] }

/-- Witness for C5 at concrete inputs: both a local-hash hit and a
remote-URL hit return the cached record with an empty backend trace. -/
theorem claim_C5_witness :
    ((uploadImage envAllOk sessCached "/proj/img.png" (some "hashA")).1 =
        .ok (recLocal, true) ∧
     (uploadImage envAllOk sessCached "/proj/img.png" (some "hashA")).2.2 =
        [] ∧
     (uploadImage envAllOk sessCached "/proj/img.png"
        (some "hashA")).2.1.cache = sessCached.cache ∧
     (uploadImage envAllOk sessCached "/proj/img.png"
        (some "hashA")).2.1.state = sessCached.state ∧
     (uploadImage envAllOk sessCached "/proj/img.png"
        (some "hashA")).2.1.createCount = sessCached.createCount) ∧
    uploadRemoteImage envAllOk sessCached "https://a.example/one.png" =
      (.ok (recRemote, true), sessCached, []) :=
  ⟨(claim_C5_session_cache_hit envAllOk sessCached).1 "/proj/img.png"
      (some "hashA") recLocal (by decide),
   (claim_C5_session_cache_hit envAllOk sessCached).2
      "https://a.example/one.png" recRemote (by decide)⟩

/-- Whether a fallible result succeeded. -/
def isOkE {ε α : Type} : Except ε α → Bool
  | .ok _ => true
  | .error _ => false

/-- C2: when the hash key is not in the session cache but is recorded in
the persisted state, and the recorded Drive file is trashed or
inaccessible (`files.get` answers `trashed` or throws), both `uploadImage`
and `uploadRemoteImage` perform a fresh upload (assuming the backend
accepts it), return the newly created file id, overwrite the state entry
for that hash with the new record, and never return the stale id. -/
theorem claim_C2_stale_entry_reupload (env : Env) (s : Session) :
    (∀ imagePath imageHashOpt rec,
      lookupA s.cache (uploadImageKey env imagePath imageHashOpt) = none →
      lookupA s.state.uploadedImages
        (uploadImageKey env imagePath imageHashOpt) = some rec →
      env.getFile rec.fileId ≠ some false →
      env.createOk s.createCount →
      env.permOk (env.createId s.createCount) →
      isOkE (uploadImage env s imagePath imageHashOpt).1 = true ∧
      (∀ r c, (uploadImage env s imagePath imageHashOpt).1 = .ok (r, c) →
        c = false ∧
        r.fileId = env.createId s.createCount ∧
        lookupA
          (uploadImage env s imagePath imageHashOpt).2.1.state.uploadedImages
          (uploadImageKey env imagePath imageHashOpt) = some r ∧
        (uploadImage env s imagePath imageHashOpt).2.2.any
          Effect.isCreate = true ∧
        (env.createId s.createCount ≠ rec.fileId → r.fileId ≠ rec.fileId))) ∧
    (∀ imageUrl rec body ct,
      lookupA s.cache (env.sha256hex imageUrl) = none →
      lookupA s.state.uploadedImages (env.sha256hex imageUrl) = some rec →
      env.getFile rec.fileId ≠ some false →
      env.ensureDirOk →
      env.httpGet imageUrl = some (body, ct) →
      env.createOk s.createCount →
      env.permOk (env.createId s.createCount) →
      isOkE (uploadRemoteImage env s imageUrl).1 = true ∧
      (∀ r c, (uploadRemoteImage env s imageUrl).1 = .ok (r, c) →
        c = false ∧
        r.fileId = env.createId s.createCount ∧
        lookupA (uploadRemoteImage env s imageUrl).2.1.state.uploadedImages
          (env.sha256hex imageUrl) = some r ∧
        (uploadRemoteImage env s imageUrl).2.2.any Effect.isCreate = true ∧
        (env.createId s.createCount ≠ rec.fileId → r.fileId ≠ rec.fileId))) := by
  constructor
  · intro p ho rec hmiss hstate hgone hc hp
    simp only [uploadImage]
    rw [uploadImageKeyAux_eq, hmiss, hstate]
    rcases hf : env.getFile rec.fileId with _ | b
    · refine ⟨by simp [hf, uploadImageFresh, hc, hp, isOkE], ?_⟩
      intro r c heq
      simp [hf, uploadImageFresh, hc, hp] at heq
      obtain ⟨hr, hcc⟩ := heq
      subst hr
      subst hcc
      simp_all [uploadImageFresh, lookupA_setA_self, Effect.isCreate]
    · cases b
      · exact absurd hf hgone
      · refine ⟨by simp [hf, uploadImageFresh, hc, hp, isOkE], ?_⟩
        intro r c heq
        simp [hf, uploadImageFresh, hc, hp] at heq
        obtain ⟨hr, hcc⟩ := heq
        subst hr
        subst hcc
        simp_all [uploadImageFresh, lookupA_setA_self, Effect.isCreate]
  · intro u rec body ct hmiss hstate hgone hdir hhttp hc hp
    simp only [uploadRemoteImage]
    rw [hmiss, hstate]
    rcases hf : env.getFile rec.fileId with _ | b
    · refine ⟨by simp [hf, uploadRemoteImageFresh, hdir, hhttp, hc, hp, isOkE],
        ?_⟩
      intro r c heq
      simp [hf, uploadRemoteImageFresh, hdir, hhttp, hc, hp] at heq
      obtain ⟨hr, hcc⟩ := heq
      subst hr
      subst hcc
      simp_all [uploadRemoteImageFresh, lookupA_setA_self, Effect.isCreate]
    · cases b
      · exact absurd hf hgone
      · refine ⟨by simp [hf, uploadRemoteImageFresh, hdir, hhttp, hc, hp,
          isOkE], ?_⟩
        intro r c heq
        simp [hf, uploadRemoteImageFresh, hdir, hhttp, hc, hp] at heq
        obtain ⟨hr, hcc⟩ := heq
        subst hr
        subst hcc
        simp_all [uploadRemoteImageFresh, lookupA_setA_self, Effect.isCreate]

/-- A session whose persisted state records two uploads whose Drive
files are gone (`envAllOk.getFile` throws for every id). -/
def sessStale : Session :=
  { sessEmpty with state := { sessEmpty.state with uploadedImages :=
      [("hashA", recLocal),
       (hashModel "https://a.example/one.png", recRemote)] } }

/-- The fresh record `uploadImage` produces in `claim_C2_witness`. -/
def recLocalNew : UploadRecord :=
  { url := "https://drive.google.com/uc?export=download&id=newfile0",
    fileId := "newfile0", fileName := "hashA-img.png", hash := "hashA",
    originalUrl := none }

/-- The fresh record `uploadRemoteImage` produces in `claim_C2_witness`. -/
def recRemoteNew : UploadRecord :=
  { url := "https://drive.google.com/uc?export=download&id=newfile0",
    fileId := "newfile0", fileName := "remote-https___.png",
    hash := hashModel "https://a.example/one.png",
    originalUrl := some "https://a.example/one.png" }

/-- Witness for C2: with stale state entries (`fileA`, `fileB` both
inaccessible), both operations re-upload, return the fresh id
`newfile0`, overwrite the state entry, and do not return the stale id. -/
theorem claim_C2_witness :
    (isOkE (uploadImage envAllOk sessStale "/proj/img.png"
        (some "hashA")).1 = true ∧
     (false = false ∧
      recLocalNew.fileId = envAllOk.createId sessStale.createCount ∧
      lookupA (uploadImage envAllOk sessStale "/proj/img.png"
          (some "hashA")).2.1.state.uploadedImages
        (uploadImageKey envAllOk "/proj/img.png" (some "hashA")) =
          some recLocalNew ∧
      (uploadImage envAllOk sessStale "/proj/img.png"
          (some "hashA")).2.2.any Effect.isCreate = true ∧
      (envAllOk.createId sessStale.createCount ≠ recLocal.fileId →
        recLocalNew.fileId ≠ recLocal.fileId))) ∧
    (isOkE (uploadRemoteImage envAllOk sessStale
        "https://a.example/one.png").1 = true ∧
     (false = false ∧
      recRemoteNew.fileId = envAllOk.createId sessStale.createCount ∧
      lookupA (uploadRemoteImage envAllOk sessStale
          "https://a.example/one.png").2.1.state.uploadedImages
        (envAllOk.sha256hex "https://a.example/one.png") =
          some recRemoteNew ∧
      (uploadRemoteImage envAllOk sessStale
          "https://a.example/one.png").2.2.any Effect.isCreate = true ∧
      (envAllOk.createId sessStale.createCount ≠ recRemote.fileId →
        recRemoteNew.fileId ≠ recRemote.fileId))) := by
  have h1 := (claim_C2_stale_entry_reupload envAllOk sessStale).1
    "/proj/img.png" (some "hashA") recLocal (by decide) (by decide)
    (by decide) (by decide) (by decide)
  have h2 := (claim_C2_stale_entry_reupload envAllOk sessStale).2
    "https://a.example/one.png" recRemote "IDENTICAL-PNG-BYTES"
    (some "image/png") (by decide) (by decide) (by decide) (by decide)
    (by decide) (by decide) (by decide)
  exact ⟨⟨h1.1, h1.2 recLocalNew false (by decide)⟩,
         ⟨h2.1, h2.2 recRemoteNew false (by decide)⟩⟩

theorem mem_insertT {l : List String} {x y : String} :
    y ∈ insertT l x ↔ y = x ∨ y ∈ l := by
  unfold insertT
  by_cases h : x ∈ l
  · simp only [if_pos h]
    constructor
    · exact Or.inr
    · rintro (rfl | hy)
      · exact h
      · exact hy
  · simp [if_neg h]

theorem mem_removeF {l : List String} {x y : String} :
    y ∈ removeF l x ↔ y ∈ l ∧ y ≠ x := by
  unfold removeF
  simp

theorem convert_temps_mem (env : Env) (p : String) (ct : Option String)
    (temps : List String) {y : String}
    (hy : y ∈ (convertImageForGoogleDocs env p ct temps).2) :
    y ∈ temps ∨ y = (convertImageForGoogleDocs env p ct temps).1 := by
  unfold convertImageForGoogleDocs convertBody at hy ⊢
  by_cases h0 : (toLowerS (extname p) = ".svg" ∨ ct = some "image/svg+xml") <;>
    by_cases hs : env.sharpAvailable <;>
    by_cases h1 : env.ensureDirOk <;> by_cases h2 : env.sharpToFileOk <;>
    by_cases h3 : env.pngExists <;>
    (simp_all [mem_insertT]; try tauto)

theorem convert_temps_mono (env : Env) (p : String) (ct : Option String)
    (temps : List String) {y : String} (hy : y ∈ temps) :
    y ∈ (convertImageForGoogleDocs env p ct temps).2 := by
  unfold convertImageForGoogleDocs convertBody
  by_cases h0 : (toLowerS (extname p) = ".svg" ∨ ct = some "image/svg+xml") <;>
    by_cases hs : env.sharpAvailable <;>
    by_cases h1 : env.ensureDirOk <;> by_cases h2 : env.sharpToFileOk <;>
    by_cases h3 : env.pngExists <;>
    simp_all [mem_insertT]

/-- The cleanup block of `uploadRemoteImage` (lines 431–441) leaves no new
temp file behind: whatever conversion produced on top of the inserted
download, removing the download path and the converted path gets back to
(a subset of) the original temp set. -/
theorem cleanup_subset {temps temps2 : List String} {tfp processed : String}
    (hmono : ∀ y ∈ insertT temps tfp, y ∈ temps2)
    (hmem : ∀ y ∈ temps2, y ∈ insertT temps tfp ∨ y = processed) :
    (if processed ≠ tfp ∧ processed ∈
        (if tfp ∈ temps2 then removeF temps2 tfp else temps2)
     then removeF
       (if tfp ∈ temps2 then removeF temps2 tfp else temps2) processed
     else (if tfp ∈ temps2 then removeF temps2 tfp else temps2)) ⊆ temps := by
  have htfp2 : tfp ∈ temps2 := hmono tfp (mem_insertT.mpr (Or.inl rfl))
  rw [if_pos htfp2]
  intro y hy
  by_cases h4 : processed ≠ tfp ∧ processed ∈ removeF temps2 tfp
  · rw [if_pos h4, mem_removeF] at hy
    obtain ⟨hy3, hyp⟩ := hy
    rw [mem_removeF] at hy3
    obtain ⟨hy2, hyt⟩ := hy3
    rcases hmem y hy2 with hyi | rfl
    · rcases mem_insertT.mp hyi with rfl | hyy
      · exact absurd rfl hyt
      · exact hyy
    · exact absurd rfl hyp
  · rw [if_neg h4, mem_removeF] at hy
    obtain ⟨hy2, hyt⟩ := hy
    rcases hmem y hy2 with hyi | rfl
    · rcases mem_insertT.mp hyi with rfl | hyy
      · exact absurd rfl hyt
      · exact hyy
    · exact absurd ⟨hyt, mem_removeF.mpr ⟨hy2, hyt⟩⟩ h4

/-- Success inversion for the fresh-upload tail of `uploadImage`: the
result is marked not-cached, carries the id Drive just assigned and the
`uc?export=download` URL for it, the trace is the accumulated prefix plus
upload, permission, and immediate persist, and both the session cache and
the persisted media map now record the result under its hash. -/
theorem uploadImageFresh_ok_inv (env : Env) (s : Session)
    (pp h : String) (effs : List Effect) {r : UploadRecord} {c : Bool}
    (heq : (uploadImageFresh env s pp h effs).1 = .ok (r, c)) :
    c = false ∧ r.fileId = env.createId s.createCount ∧
    r.url = "https://drive.google.com/uc?export=download&id=" ++ r.fileId ∧
    r.hash = h ∧
    (uploadImageFresh env s pp h effs).2.2 =
      effs ++ [.driveCreate (takeS h 8 ++ "-" ++ basename pp)
                 (getMimeType pp) (env.readFile pp),
               .permCreate r.fileId, .loadState, .updateState] ∧
    lookupA (uploadImageFresh env s pp h effs).2.1.state.uploadedImages h =
      some r ∧
    (uploadImageFresh env s pp h effs).2.1.cache = setA s.cache h r ∧
    (uploadImageFresh env s pp h effs).2.1.tempFiles = s.tempFiles := by
  unfold uploadImageFresh at heq ⊢
  by_cases hc : env.createOk s.createCount
  · by_cases hp : env.permOk (env.createId s.createCount)
    · simp only [hc, hp] at heq ⊢
      simp at heq
      obtain ⟨hr, hcc⟩ := heq
      subst hr
      subst hcc
      simp [lookupA_setA_self]
    · simp [hc, hp] at heq
  · simp [hc] at heq

/-- Success inversion for the download-and-upload tail of
`uploadRemoteImage`: same result shape as the local fresh upload, and in
addition the final temp-file set is contained in the starting one (the
cleanup block removed everything this invocation wrote). -/
theorem uploadRemoteImageFresh_ok_inv (env : Env) (s : Session)
    (u uh : String) (effs : List Effect) {r : UploadRecord} {c : Bool}
    (heq : (uploadRemoteImageFresh env s u uh effs).1 = .ok (r, c)) :
    c = false ∧ r.fileId = env.createId s.createCount ∧
    r.url = "https://drive.google.com/uc?export=download&id=" ++ r.fileId ∧
    r.hash = uh ∧
    (∃ nm mt bb, (uploadRemoteImageFresh env s u uh effs).2.2 =
      effs ++ [.driveCreate nm mt bb, .permCreate r.fileId, .loadState,
               .updateState]) ∧
    lookupA (uploadRemoteImageFresh env s u uh effs).2.1.state.uploadedImages
      uh = some r ∧
    (uploadRemoteImageFresh env s u uh effs).2.1.cache = setA s.cache uh r ∧
    (uploadRemoteImageFresh env s u uh effs).2.1.tempFiles ⊆ s.tempFiles := by
  unfold uploadRemoteImageFresh at heq ⊢
  by_cases hdir : env.ensureDirOk
  · rcases hg : env.httpGet u with _ | ⟨body, ct⟩
    · simp [hdir, hg] at heq
    · by_cases hc : env.createOk s.createCount
      · by_cases hp : env.permOk (env.createId s.createCount)
        · simp only [hdir, hg, hc, hp] at heq ⊢
          simp at heq
          obtain ⟨hr, hcc⟩ := heq
          subst hr
          subst hcc
          refine ⟨rfl, rfl, rfl, rfl, ⟨_, _, _, rfl⟩, ?_, by simp, ?_⟩
          · simp [lookupA_setA_self]
          · exact cleanup_subset
              (fun y hy => convert_temps_mono env _ _ _ hy)
              (fun y hy => convert_temps_mem env _ _ _ hy)
        · simp [hdir, hg, hc, hp] at heq
      · simp [hdir, hg, hc] at heq
  · simp [hdir] at heq

/-- Success inversion for the folder-creation tail of
`ensureImageFolder`: the returned id is the one Drive just assigned, the
trace adds creation, permission and an immediate persist, and the new id
is recorded in the state without touching the media map. -/
theorem createImageFolder_ok_inv (env : Env) (s : Session)
    (effs : List Effect) {fid : String}
    (heq : (createImageFolder env s effs).1 = .ok fid) :
    fid = env.createId s.createCount ∧
    (createImageFolder env s effs).2.2 =
      effs ++ [.driveCreate ("docflu-files-" ++ env.now)
                 "application/vnd.google-apps.folder" "",
               .permCreate fid, .loadState, .updateState] ∧
    (createImageFolder env s effs).2.1.state.imageFolderId = some fid ∧
    (createImageFolder env s effs).2.1.state.uploadedImages =
      s.state.uploadedImages := by
  unfold createImageFolder at heq ⊢
  by_cases hc : env.createOk s.createCount
  · by_cases hp : env.permOk (env.createId s.createCount)
    · simp only [hc, hp] at heq ⊢
      simp at heq
      subst heq
      simp
    · simp [hc, hp] at heq
  · simp [hc] at heq

/-- Success inversion for `uploadImage`: a successful call is a session
cache hit (cached, empty trace), a state adoption (cached, one existence
check that found the file live), or a fresh upload (not cached; upload,
permission and immediate persist; cache and state both record the new
record under the key). -/
theorem uploadImage_ok_inv (env : Env) (s : Session) (p : String)
    (ho : Option String) {r : UploadRecord} {c : Bool}
    (heq : (uploadImage env s p ho).1 = .ok (r, c)) :
    (c = true ∧ (uploadImage env s p ho).2.2 = [] ∧
      lookupA s.cache (uploadImageKey env p ho) = some r ∧
      (uploadImage env s p ho).2.1.cache = s.cache ∧
      (uploadImage env s p ho).2.1.state = s.state) ∨
    (c = true ∧ (uploadImage env s p ho).2.2 =
        [.loadState, .driveGet r.fileId] ∧
      lookupA s.state.uploadedImages (uploadImageKey env p ho) = some r ∧
      env.getFile r.fileId = some false ∧
      (uploadImage env s p ho).2.1.cache =
        setA s.cache (uploadImageKey env p ho) r ∧
      (uploadImage env s p ho).2.1.state = s.state) ∨
    (c = false ∧ r.fileId = env.createId s.createCount ∧
      r.url = "https://drive.google.com/uc?export=download&id=" ++ r.fileId ∧
      r.hash = uploadImageKey env p ho ∧
      (∃ pre nm mt bb, (uploadImage env s p ho).2.2 =
        pre ++ [.driveCreate nm mt bb, .permCreate r.fileId, .loadState,
                .updateState] ∧ pre.any Effect.isCreate = false) ∧
      lookupA (uploadImage env s p ho).2.1.state.uploadedImages
        (uploadImageKey env p ho) = some r ∧
      (uploadImage env s p ho).2.1.cache =
        setA s.cache (uploadImageKey env p ho) r) := by
  simp only [uploadImage] at heq ⊢
  rw [uploadImageKeyAux_eq] at heq ⊢
  rcases hm : lookupA s.cache (uploadImageKey env p ho) with _ | r0
  · simp only [hm] at heq ⊢
    rcases hst : lookupA s.state.uploadedImages (uploadImageKey env p ho)
      with _ | rec
    · simp only [hst] at heq ⊢
      obtain ⟨h1, h2, h3, h4, h5, h6, h7, h8⟩ :=
        uploadImageFresh_ok_inv env _ _ _ _ heq
      exact Or.inr (Or.inr ⟨h1, h2, h3, h4,
        ⟨[Effect.loadState], _, _, _, h5, by simp [Effect.isCreate]⟩,
        h6, h7⟩)
    · rcases hf : env.getFile rec.fileId with _ | b
      · simp only [hst, hf] at heq ⊢
        obtain ⟨h1, h2, h3, h4, h5, h6, h7, h8⟩ :=
          uploadImageFresh_ok_inv env _ _ _ _ heq
        exact Or.inr (Or.inr ⟨h1, h2, h3, h4,
          ⟨[Effect.loadState, Effect.driveGet rec.fileId], _, _, _, h5,
            by simp [Effect.isCreate]⟩, h6, h7⟩)
      · cases b
        · simp only [hst, hf] at heq ⊢
          simp at heq
          obtain ⟨hr, hcc⟩ := heq
          subst hr
          subst hcc
          refine Or.inr (Or.inl ⟨?_, ?_, ?_, ?_, ?_, ?_⟩) <;> simp_all
        · simp only [hst, hf] at heq ⊢
          obtain ⟨h1, h2, h3, h4, h5, h6, h7, h8⟩ :=
            uploadImageFresh_ok_inv env _ _ _ _ heq
          exact Or.inr (Or.inr ⟨h1, h2, h3, h4,
            ⟨[Effect.loadState, Effect.driveGet rec.fileId], _, _, _, h5,
              by simp [Effect.isCreate]⟩, h6, h7⟩)
  · simp only [hm] at heq ⊢
    simp at heq
    obtain ⟨hr, hcc⟩ := heq
    subst hr
    subst hcc
    refine Or.inl ⟨?_, ?_, ?_, ?_, ?_⟩ <;> simp_all

/-- Success inversion for `uploadRemoteImage`, keyed by the sha-256 of
the URL string; in every successful outcome the final temp-file set is
contained in the starting one. -/
theorem uploadRemoteImage_ok_inv (env : Env) (s : Session) (u : String)
    {r : UploadRecord} {c : Bool}
    (heq : (uploadRemoteImage env s u).1 = .ok (r, c)) :
    ((c = true ∧ (uploadRemoteImage env s u).2.2 = [] ∧
      lookupA s.cache (env.sha256hex u) = some r ∧
      (uploadRemoteImage env s u).2.1.cache = s.cache ∧
      (uploadRemoteImage env s u).2.1.state = s.state) ∨
    (c = true ∧ (uploadRemoteImage env s u).2.2 =
        [.loadState, .driveGet r.fileId] ∧
      lookupA s.state.uploadedImages (env.sha256hex u) = some r ∧
      env.getFile r.fileId = some false ∧
      (uploadRemoteImage env s u).2.1.cache =
        setA s.cache (env.sha256hex u) r ∧
      (uploadRemoteImage env s u).2.1.state = s.state) ∨
    (c = false ∧ r.fileId = env.createId s.createCount ∧
      r.url = "https://drive.google.com/uc?export=download&id=" ++ r.fileId ∧
      r.hash = env.sha256hex u ∧
      (∃ pre nm mt bb, (uploadRemoteImage env s u).2.2 =
        pre ++ [.driveCreate nm mt bb, .permCreate r.fileId, .loadState,
                .updateState] ∧ pre.any Effect.isCreate = false) ∧
      lookupA (uploadRemoteImage env s u).2.1.state.uploadedImages
        (env.sha256hex u) = some r ∧
      (uploadRemoteImage env s u).2.1.cache =
        setA s.cache (env.sha256hex u) r)) ∧
    (uploadRemoteImage env s u).2.1.tempFiles ⊆ s.tempFiles := by
  simp only [uploadRemoteImage] at heq ⊢
  rcases hm : lookupA s.cache (env.sha256hex u) with _ | r0
  · simp only [hm] at heq ⊢
    rcases hst : lookupA s.state.uploadedImages (env.sha256hex u)
      with _ | rec
    · simp only [hst] at heq ⊢
      obtain ⟨h1, h2, h3, h4, h5, h6, h7, h8⟩ :=
        uploadRemoteImageFresh_ok_inv env _ _ _ _ heq
      obtain ⟨nm, mt, bb, h5'⟩ := h5
      exact ⟨Or.inr (Or.inr ⟨h1, h2, h3, h4,
        ⟨[Effect.loadState], nm, mt, bb, h5', by simp [Effect.isCreate]⟩,
        h6, h7⟩), h8⟩
    · rcases hf : env.getFile rec.fileId with _ | b
      · simp only [hst, hf] at heq ⊢
        obtain ⟨h1, h2, h3, h4, h5, h6, h7, h8⟩ :=
          uploadRemoteImageFresh_ok_inv env _ _ _ _ heq
        obtain ⟨nm, mt, bb, h5'⟩ := h5
        exact ⟨Or.inr (Or.inr ⟨h1, h2, h3, h4,
          ⟨[Effect.loadState, Effect.driveGet rec.fileId], nm, mt, bb, h5',
            by simp [Effect.isCreate]⟩, h6, h7⟩), h8⟩
      · cases b
        · simp only [hst, hf] at heq ⊢
          simp at heq
          obtain ⟨hr, hcc⟩ := heq
          subst hr
          subst hcc
          refine ⟨Or.inr (Or.inl ⟨?_, ?_, ?_, ?_, ?_, ?_⟩), ?_⟩ <;>
            simp_all [List.Subset.refl]
        · simp only [hst, hf] at heq ⊢
          obtain ⟨h1, h2, h3, h4, h5, h6, h7, h8⟩ :=
            uploadRemoteImageFresh_ok_inv env _ _ _ _ heq
          obtain ⟨nm, mt, bb, h5'⟩ := h5
          exact ⟨Or.inr (Or.inr ⟨h1, h2, h3, h4,
            ⟨[Effect.loadState, Effect.driveGet rec.fileId], nm, mt, bb,
              h5', by simp [Effect.isCreate]⟩, h6, h7⟩), h8⟩
  · simp only [hm] at heq ⊢
    simp at heq
    obtain ⟨hr, hcc⟩ := heq
    subst hr
    subst hcc
    refine ⟨Or.inl ⟨?_, ?_, ?_, ?_, ?_⟩, ?_⟩ <;>
      simp_all [List.Subset.refl]

theorem uploadImage_hit (env : Env) (s : Session) (p : String)
    (ho : Option String) {r : UploadRecord}
    (hhit : lookupA s.cache (uploadImageKey env p ho) = some r) :
    (uploadImage env s p ho).1 = .ok (r, true) ∧
    (uploadImage env s p ho).2.2 = [] := by
  simp only [uploadImage]
  rw [uploadImageKeyAux_eq, hhit]
  simp

theorem uploadRemoteImage_hit (env : Env) (s : Session) (u : String)
    {r : UploadRecord}
    (hhit : lookupA s.cache (env.sha256hex u) = some r) :
    uploadRemoteImage env s u = (.ok (r, true), s, []) := by
  simp only [uploadRemoteImage]
  rw [hhit]

/-- After any successful `uploadImage`, the session cache holds the
returned record under the computed key. -/
theorem uploadImage_ok_cache (env : Env) (s : Session) (p : String)
    (ho : Option String) {r : UploadRecord} {c : Bool}
    (heq : (uploadImage env s p ho).1 = .ok (r, c)) :
    lookupA (uploadImage env s p ho).2.1.cache (uploadImageKey env p ho) =
      some r := by
  rcases uploadImage_ok_inv env s p ho heq with
    ⟨_, _, hm, hcache, _⟩ | ⟨_, _, _, _, hcache, _⟩ |
    ⟨_, _, _, _, _, _, hcache⟩
  · rw [hcache]; exact hm
  · rw [hcache]; exact lookupA_setA_self _ _ _
  · rw [hcache]; exact lookupA_setA_self _ _ _

/-- After any successful `uploadRemoteImage`, the session cache holds the
returned record under the URL hash. -/
theorem uploadRemoteImage_ok_cache (env : Env) (s : Session) (u : String)
    {r : UploadRecord} {c : Bool}
    (heq : (uploadRemoteImage env s u).1 = .ok (r, c)) :
    lookupA (uploadRemoteImage env s u).2.1.cache (env.sha256hex u) =
      some r := by
  rcases (uploadRemoteImage_ok_inv env s u heq).1 with
    ⟨_, _, hm, hcache, _⟩ | ⟨_, _, _, _, hcache, _⟩ |
    ⟨_, _, _, _, _, _, hcache⟩
  · rw [hcache]; exact hm
  · rw [hcache]; exact lookupA_setA_self _ _ _
  · rw [hcache]; exact lookupA_setA_self _ _ _

/-- Success inversion for `ensureImageFolder`: either the recorded folder
was alive (no creation, state untouched, recorded id returned), or a
folder was created and its id persisted with an immediate
`loadState`/`updateState` tail. -/
theorem ensureImageFolder_ok_inv (env : Env) (s : Session) {fid : String}
    (heq : (ensureImageFolder env s).1 = .ok fid) :
    ((ensureImageFolder env s).2.2.any Effect.isCreate = false ∧
     (ensureImageFolder env s).2.1.state = s.state ∧
     s.state.imageFolderId = some fid) ∨
    ((∃ pre, (ensureImageFolder env s).2.2 =
       pre ++ [Effect.loadState, Effect.updateState]) ∧
     (ensureImageFolder env s).2.1.state.imageFolderId = some fid) := by
  unfold ensureImageFolder at heq ⊢
  rcases hrec : s.state.imageFolderId with _ | fid0
  · simp only [hrec] at heq ⊢
    obtain ⟨h1, h2, h3, h4⟩ := createImageFolder_ok_inv env _ _ heq
    right
    refine ⟨⟨[Effect.loadState,
      Effect.driveCreate ("docflu-files-" ++ env.now)
        "application/vnd.google-apps.folder" "",
      Effect.permCreate fid], ?_⟩, h3⟩
    rw [h2]
    simp
  · simp only [hrec] at heq ⊢
    rcases hf : env.getFile fid0 with _ | b
    · simp only [hf] at heq ⊢
      obtain ⟨h1, h2, h3, h4⟩ := createImageFolder_ok_inv env _ _ heq
      right
      refine ⟨⟨[Effect.loadState, Effect.driveGet fid0,
        Effect.driveCreate ("docflu-files-" ++ env.now)
          "application/vnd.google-apps.folder" "",
        Effect.permCreate fid], ?_⟩, h3⟩
      rw [h2]
      simp
    · cases b
      · simp only [hf] at heq ⊢
        simp at heq
        subst heq
        refine Or.inl ⟨by simp [Effect.isCreate], by simp, rfl⟩
      · simp only [hf] at heq ⊢
        obtain ⟨h1, h2, h3, h4⟩ := createImageFolder_ok_inv env _ _ heq
        right
        refine ⟨⟨[Effect.loadState, Effect.driveGet fid0,
          Effect.driveCreate ("docflu-files-" ++ env.now)
            "application/vnd.google-apps.folder" "",
          Effect.permCreate fid], ?_⟩, h3⟩
        rw [h2]
        simp

/-- C8: every upload that creates a new remote file (a successful result
not served from a cache) makes the file publicly readable — a
`permissions.create` (anyone/reader) on the new id is in the trace before
the return — and the returned URL is the stable direct-download reference
`https://drive.google.com/uc?export=download&id=` followed by the new
file's id. -/
theorem claim_C8_public_and_url (env : Env) (s : Session) :
    (∀ imagePath imageHashOpt r,
      (uploadImage env s imagePath imageHashOpt).1 = .ok (r, false) →
      Effect.permCreate r.fileId ∈
        (uploadImage env s imagePath imageHashOpt).2.2 ∧
      r.url = "https://drive.google.com/uc?export=download&id=" ++
        r.fileId) ∧
    (∀ imageUrl r,
      (uploadRemoteImage env s imageUrl).1 = .ok (r, false) →
      Effect.permCreate r.fileId ∈ (uploadRemoteImage env s imageUrl).2.2 ∧
      r.url = "https://drive.google.com/uc?export=download&id=" ++
        r.fileId) := by
  constructor
  · intro p ho r heq
    rcases uploadImage_ok_inv env s p ho heq with
      ⟨hc, _⟩ | ⟨hc, _⟩ |
      ⟨_, _, hurl, _, ⟨pre, nm, mt, bb, heff, _⟩, _⟩
    · simp at hc
    · simp at hc
    · refine ⟨?_, hurl⟩
      rw [heff]
      simp
  · intro u r heq
    rcases (uploadRemoteImage_ok_inv env s u heq).1 with
      ⟨hc, _⟩ | ⟨hc, _⟩ |
      ⟨_, _, hurl, _, ⟨pre, nm, mt, bb, heff, _⟩, _⟩
    · simp at hc
    · simp at hc
    · refine ⟨?_, hurl⟩
      rw [heff]
      simp

/-- C10: for every successfully completed `uploadImage` or
`uploadRemoteImage`, the returned `cached` flag is `true` exactly when
the invocation made no `files.create` call (the result came from the
session cache or a live persisted record), and `false` exactly when a
fresh remote file was created. -/
theorem claim_C10_cached_iff_no_create (env : Env) (s : Session) :
    (∀ imagePath imageHashOpt r c,
      (uploadImage env s imagePath imageHashOpt).1 = .ok (r, c) →
      (c = true ↔
        (uploadImage env s imagePath imageHashOpt).2.2.any
          Effect.isCreate = false)) ∧
    (∀ imageUrl r c,
      (uploadRemoteImage env s imageUrl).1 = .ok (r, c) →
      (c = true ↔
        (uploadRemoteImage env s imageUrl).2.2.any Effect.isCreate =
          false)) := by
  constructor
  · intro p ho r c heq
    rcases uploadImage_ok_inv env s p ho heq with
      ⟨hc, heff, _⟩ | ⟨hc, heff, _⟩ |
      ⟨hc, _, _, _, ⟨pre, nm, mt, bb, heff, hpre⟩, _⟩
    · subst hc; rw [heff]; simp
    · subst hc; rw [heff]; simp [Effect.isCreate]
    · subst hc; rw [heff]; simp [Effect.isCreate]
  · intro u r c heq
    rcases (uploadRemoteImage_ok_inv env s u heq).1 with
      ⟨hc, heff, _⟩ | ⟨hc, heff, _⟩ |
      ⟨hc, _, _, _, ⟨pre, nm, mt, bb, heff, hpre⟩, _⟩
    · subst hc; rw [heff]; simp
    · subst hc; rw [heff]; simp [Effect.isCreate]
    · subst hc; rw [heff]; simp [Effect.isCreate]

/-- C4: whenever a successful run of `ensureImageFolder`, `uploadImage`
or `uploadRemoteImage` created a remote resource (its trace contains a
`files.create`), the same invocation persisted the created id before
returning: the trace ends with the `loadState`/`updateState` pair of the
immediate persist, and the resulting state snapshot records the new
resource. -/
theorem claim_C4_immediate_persist (env : Env) (s : Session) :
    (∀ fid, (ensureImageFolder env s).1 = .ok fid →
      (ensureImageFolder env s).2.2.any Effect.isCreate = true →
      (∃ pre, (ensureImageFolder env s).2.2 =
        pre ++ [Effect.loadState, Effect.updateState]) ∧
      (ensureImageFolder env s).2.1.state.imageFolderId = some fid) ∧
    (∀ imagePath imageHashOpt r c,
      (uploadImage env s imagePath imageHashOpt).1 = .ok (r, c) →
      (uploadImage env s imagePath imageHashOpt).2.2.any
        Effect.isCreate = true →
      (∃ pre, (uploadImage env s imagePath imageHashOpt).2.2 =
        pre ++ [Effect.loadState, Effect.updateState]) ∧
      lookupA
        (uploadImage env s imagePath imageHashOpt).2.1.state.uploadedImages
        r.hash = some r) ∧
    (∀ imageUrl r c,
      (uploadRemoteImage env s imageUrl).1 = .ok (r, c) →
      (uploadRemoteImage env s imageUrl).2.2.any Effect.isCreate = true →
      (∃ pre, (uploadRemoteImage env s imageUrl).2.2 =
        pre ++ [Effect.loadState, Effect.updateState]) ∧
      lookupA (uploadRemoteImage env s imageUrl).2.1.state.uploadedImages
        r.hash = some r) := by
  refine ⟨?_, ?_, ?_⟩
  · intro fid heq hany
    rcases ensureImageFolder_ok_inv env s heq with
      ⟨hno, _⟩ | ⟨hpre, hrec⟩
    · rw [hany] at hno
      simp at hno
    · exact ⟨hpre, hrec⟩
  · intro p ho r c heq hany
    rcases uploadImage_ok_inv env s p ho heq with
      ⟨_, heff, _⟩ | ⟨_, heff, _⟩ |
      ⟨_, _, _, hhash, ⟨pre, nm, mt, bb, heff, _⟩, hlook, _⟩
    · rw [heff] at hany
      simp at hany
    · rw [heff] at hany
      simp [Effect.isCreate] at hany
    · refine ⟨⟨pre ++ [Effect.driveCreate nm mt bb,
        Effect.permCreate r.fileId], ?_⟩, ?_⟩
      · rw [heff]
        simp
      · rw [hhash]
        exact hlook
  · intro u r c heq hany
    rcases (uploadRemoteImage_ok_inv env s u heq).1 with
      ⟨_, heff, _⟩ | ⟨_, heff, _⟩ |
      ⟨_, _, _, hhash, ⟨pre, nm, mt, bb, heff, _⟩, hlook, _⟩
    · rw [heff] at hany
      simp at hany
    · rw [heff] at hany
      simp [Effect.isCreate] at hany
    · refine ⟨⟨pre ++ [Effect.driveCreate nm mt bb,
        Effect.permCreate r.fileId], ?_⟩, ?_⟩
      · rw [heff]
        simp
      · rw [hhash]
        exact hlook

/-- C3 as amended: `uploadRemoteImage` removes its temporary files only
when the invocation completes successfully — after any successful run
the resulting temp directory is contained in the starting one.  (On an
error after the download is written, the temp file survives — see the
counterexample.) -/
theorem claim_C3_amended_cleanup_on_success (env : Env) (s : Session)
    (imageUrl : String) (r : UploadRecord) (c : Bool)
    (heq : (uploadRemoteImage env s imageUrl).1 = .ok (r, c)) :
    (uploadRemoteImage env s imageUrl).2.1.tempFiles ⊆ s.tempFiles :=
  (uploadRemoteImage_ok_inv env s imageUrl heq).2

/-- C1 as amended: asset identity is the client's cache key — the content
hash of the processed bytes for local files, but the sha-256 of the URL
string (not of the served bytes) for remote URLs.  Per key, at most one
upload occurs across sequential resolutions: after one resolution
succeeds, a second resolution of the same key answers from the session
cache with the same record, marked cached, performing no upload. -/
theorem claim_C1_amended_per_key_upload (env : Env) (s : Session) :
    (∀ p1 ho1 p2 ho2 r1 c1,
      (uploadImage env s p1 ho1).1 = .ok (r1, c1) →
      uploadImageKey env p2 ho2 = uploadImageKey env p1 ho1 →
      (uploadImage env (uploadImage env s p1 ho1).2.1 p2 ho2).1 =
        .ok (r1, true) ∧
      (uploadImage env (uploadImage env s p1 ho1).2.1 p2 ho2).2.2.any
        Effect.isCreate = false) ∧
    (∀ u1 u2 r1 c1,
      (uploadRemoteImage env s u1).1 = .ok (r1, c1) →
      env.sha256hex u2 = env.sha256hex u1 →
      (uploadRemoteImage env (uploadRemoteImage env s u1).2.1 u2).1 =
        .ok (r1, true) ∧
      (uploadRemoteImage env (uploadRemoteImage env s u1).2.1 u2).2.2 =
        []) := by
  constructor
  · intro p1 ho1 p2 ho2 r1 c1 heq hkey
    have hcache := uploadImage_ok_cache env s p1 ho1 heq
    rw [← hkey] at hcache
    obtain ⟨h1, h2⟩ := uploadImage_hit env _ p2 ho2 hcache
    rw [h2]
    exact ⟨h1, by simp⟩
  · intro u1 u2 r1 c1 heq hkey
    have hcache := uploadRemoteImage_ok_cache env s u1 heq
    rw [← hkey] at hcache
    have hh := uploadRemoteImage_hit env _ u2 hcache
    rw [hh]
    exact ⟨rfl, rfl⟩

/-- First remote resolution of the C1 refutation. -/
def runRemoteA : Except String (UploadRecord × Bool) × Session ×
    List Effect :=
  uploadRemoteImage envAllOk sessEmpty "https://a.example/one.png"

/-- Second remote resolution of the C1 refutation: a different URL whose
served bytes are identical. -/
def runRemoteB : Except String (UploadRecord × Bool) × Session ×
    List Effect :=
  uploadRemoteImage envAllOk runRemoteA.2.1 "https://b.example/two.png"

/-- Counterexample to C1 as stated: two different remote URLs serve
byte-identical images (the environment returns the same body for every
URL, and the two uploaded bodies are equal), both resolutions succeed,
yet two physical `files.create` uploads happen and two distinct cache
entries remain — the remote cache key is the sha-256 of the URL string,
not of the processed bytes. -/
theorem claim_C1_counterexample :
    envAllOk.httpGet "https://a.example/one.png" =
      envAllOk.httpGet "https://b.example/two.png" ∧
    ("https://a.example/one.png" : String) ≠ "https://b.example/two.png" ∧
    isOkE runRemoteA.1 = true ∧ isOkE runRemoteB.1 = true ∧
    (runRemoteA.2.2 ++ runRemoteB.2.2).filter Effect.isCreate =
      [.driveCreate "remote-https___.png" "image/png"
         "IDENTICAL-PNG-BYTES",
       .driveCreate "remote-https___.png" "image/png"
         "IDENTICAL-PNG-BYTES"] ∧
    runRemoteB.2.1.cache.length = 2 := by decide

/-- The record the fresh local upload of the witnesses produces. -/
def recLocalBytes : UploadRecord :=
  { url := "https://drive.google.com/uc?export=download&id=newfile0",
    fileId := "newfile0", fileName := "LOCAL-BY-img.png",
    hash := "LOCAL-BYTES", originalUrl := none }

/-- Witness for the amended C1: resolving a second reference with the
same key (same caller-supplied hash; same URL) after a successful first
resolution returns the first record marked cached and uploads nothing. -/
theorem claim_C1_witness :
    ((uploadImage envAllOk
        (uploadImage envAllOk sessEmpty "/proj/img.png"
          (some "hashA")).2.1 "/proj/other.png" (some "hashA")).1 =
      .ok (recLocalNew, true) ∧
     (uploadImage envAllOk
        (uploadImage envAllOk sessEmpty "/proj/img.png"
          (some "hashA")).2.1 "/proj/other.png" (some "hashA")).2.2.any
       Effect.isCreate = false) ∧
    ((uploadRemoteImage envAllOk
        (uploadRemoteImage envAllOk sessEmpty
          "https://a.example/one.png").2.1 "https://a.example/one.png").1 =
      .ok (recRemoteNew, true) ∧
     (uploadRemoteImage envAllOk
        (uploadRemoteImage envAllOk sessEmpty
          "https://a.example/one.png").2.1
        "https://a.example/one.png").2.2 = []) :=
  ⟨(claim_C1_amended_per_key_upload envAllOk sessEmpty).1 "/proj/img.png"
      (some "hashA") "/proj/other.png" (some "hashA") recLocalNew false
      (by decide) (by decide),
   (claim_C1_amended_per_key_upload envAllOk sessEmpty).2
      "https://a.example/one.png" "https://a.example/one.png" recRemoteNew
      false (by decide) (by decide)⟩

/-- Environment in which `drive.files.create` fails. -/
def envCreateFail : Env := { envAllOk with createOk := fun _ => false }

/-- Counterexample to C3 as stated: the download is written to the temp
file, the upload call then throws, the invocation ends in an error — and
the temporary file is still on disk, because the cleanup block runs only
on the success path (no `finally`). -/
theorem claim_C3_counterexample :
    isOkE (uploadRemoteImage envCreateFail sessEmpty
      "https://a.example/one.png").1 = false ∧
    (uploadRemoteImage envCreateFail sessEmpty
      "https://a.example/one.png").2.1.tempFiles =
      ["/proj/.docusaurus/temp/remote-https___.png"] := by decide

/-- Witness for the amended C3: a successful remote upload leaves the
temp directory no larger than it started. -/
theorem claim_C3_witness :
    (uploadRemoteImage envAllOk sessEmpty
      "https://a.example/one.png").2.1.tempFiles ⊆ sessEmpty.tempFiles :=
  claim_C3_amended_cleanup_on_success envAllOk sessEmpty
    "https://a.example/one.png" recRemoteNew false (by decide)

/-- Witness for C4 at concrete inputs: all three creating operations end
their trace with the persist pair and record the new resource. -/
theorem claim_C4_witness :
    ((∃ pre, (ensureImageFolder envAllOk sessEmpty).2.2 =
        pre ++ [Effect.loadState, Effect.updateState]) ∧
     (ensureImageFolder envAllOk sessEmpty).2.1.state.imageFolderId =
       some "newfile0") ∧
    ((∃ pre, (uploadImage envAllOk sessEmpty "/proj/img.png" none).2.2 =
        pre ++ [Effect.loadState, Effect.updateState]) ∧
     lookupA (uploadImage envAllOk sessEmpty
        "/proj/img.png" none).2.1.state.uploadedImages
       recLocalBytes.hash = some recLocalBytes) ∧
    ((∃ pre, (uploadRemoteImage envAllOk sessEmpty
        "https://a.example/one.png").2.2 =
        pre ++ [Effect.loadState, Effect.updateState]) ∧
     lookupA (uploadRemoteImage envAllOk sessEmpty
        "https://a.example/one.png").2.1.state.uploadedImages
       recRemoteNew.hash = some recRemoteNew) :=
  ⟨(claim_C4_immediate_persist envAllOk sessEmpty).1 "newfile0" (by decide)
      (by decide),
   (claim_C4_immediate_persist envAllOk sessEmpty).2.1 "/proj/img.png" none
      recLocalBytes false (by decide) (by decide),
   (claim_C4_immediate_persist envAllOk sessEmpty).2.2
      "https://a.example/one.png" recRemoteNew false (by decide)
      (by decide)⟩

/-- Witness for C8 at concrete inputs: both fresh uploads set the public
permission on the new id and return the `uc?export=download` URL. -/
theorem claim_C8_witness :
    (Effect.permCreate recLocalBytes.fileId ∈
      (uploadImage envAllOk sessEmpty "/proj/img.png" none).2.2 ∧
     recLocalBytes.url =
      "https://drive.google.com/uc?export=download&id=" ++
        recLocalBytes.fileId) ∧
    (Effect.permCreate recRemoteNew.fileId ∈
      (uploadRemoteImage envAllOk sessEmpty
        "https://a.example/one.png").2.2 ∧
     recRemoteNew.url =
      "https://drive.google.com/uc?export=download&id=" ++
        recRemoteNew.fileId) :=
  ⟨(claim_C8_public_and_url envAllOk sessEmpty).1 "/proj/img.png" none
      recLocalBytes (by decide),
   (claim_C8_public_and_url envAllOk sessEmpty).2 "https://a.example/one.png"
      recRemoteNew (by decide)⟩

/-- Witness for C10 at concrete inputs: a fresh local upload comes back
`cached = false` with a create in its trace; a session-cache remote hit
comes back `cached = true` with no create. -/
theorem claim_C10_witness :
    (false = true ↔
      (uploadImage envAllOk sessEmpty "/proj/img.png" none).2.2.any
        Effect.isCreate = false) ∧
    (true = true ↔
      (uploadRemoteImage envAllOk sessCached
        "https://a.example/one.png").2.2.any Effect.isCreate = false) :=
  ⟨(claim_C10_cached_iff_no_create envAllOk sessEmpty).1 "/proj/img.png"
      none recLocalBytes false (by decide),
   (claim_C10_cached_iff_no_create envAllOk sessCached).2
      "https://a.example/one.png" recRemote true (by decide)⟩

end DocFlu
